import Mathlib

/-!
Shallow embedding of the `scancheckout-oss` POS intake service, centred on
the Odoo JSON-RPC adapter (`src/services/api/app/pos_adapters/odoo_jsonrpc.py`),
the checkout route (`src/services/api/app/routes/pos.py`) and the placeholder
vision module (`src/services/api/app/vision/infer.py`).

Python values returned by the remote ERP are modelled by the inductive
`PyVal`; Python exceptions by `PyErr`, split into the adapter-level
`OdooJsonRpcError` and everything else.  Remote interaction is modelled by an
environment record (`RemoteEnv`) giving the response of each call site, and
every adapter operation additionally returns the trace of `call_kw`
invocations it issued, so that claims about "no remote call is made" are
statable.  Prices are rationals; Python `round(x, n)` is modelled by
round-half-to-even on exact rationals.
-/

namespace ScanCheckout

/-- Untyped Python value, as returned by the JSON-RPC layer. -/
inductive PyVal where
  | none
  | int (n : Int)
  | bool (b : Bool)
  | str (s : String)
  | float (q : ℚ)
  | list (xs : List PyVal)
  | dict (kvs : List (String × PyVal))

/-- A Python exception: either the adapter-level `OdooJsonRpcError` or any other
(unexpected) exception, each carrying `str(exc)`. -/
inductive PyErr where
  | odooJsonRpc (msg : String)
  | other (msg : String)
deriving DecidableEq

/-- Model of Python `str(exc)` for a modelled exception. -/
def PyErr.msg : PyErr → String
  | .odooJsonRpc m => m
  | .other m => m

/-- One `call_kw` invocation, identified by its target model and method. -/
structure RpcCall where
  model : String
  method : String
deriving DecidableEq

/-- First-match lookup in an association-list dictionary. -/
def dictGet (d : List (String × PyVal)) (k : String) : Option PyVal :=
  match d with
  | [] => Option.none
  | (k0, v) :: rest => if k0 = k then Option.some v else dictGet rest k

/-- Assignment `d[k] = v` with Python dict semantics: overwrite an existing key,
otherwise append. -/
def dictSet (d : List (String × PyVal)) (k : String) (v : PyVal) :
    List (String × PyVal) :=
  match d with
  | [] => [(k, v)]
  | (k0, v0) :: rest =>
      if k0 = k then (k0, v) :: rest else (k0, v0) :: dictSet rest k v

/-- Python `d.update(extra)`: apply `dictSet` for each pair of `extra` in order. -/
def dictUpdate (d extra : List (String × PyVal)) : List (String × PyVal) :=
  extra.foldl (fun acc kv => dictSet acc kv.1 kv.2) d

/-- Generic first-match association-list lookup (Python `dict.get`). -/
def assocGet {α : Type} (d : List (String × α)) (k : String) : Option α :=
  match d with
  | [] => Option.none
  | (k0, v) :: rest => if k0 = k then Option.some v else assocGet rest k

/-- Generic Python-dict assignment on an association list. -/
def assocSet {α : Type} (d : List (String × α)) (k : String) (v : α) :
    List (String × α) :=
  match d with
  | [] => [(k, v)]
  | (k0, v0) :: rest =>
      if k0 = k then (k0, v) :: rest else (k0, v0) :: assocSet rest k v

/-- Round a rational to the nearest integer, ties to even — the behaviour of
Python `round` on an exactly represented value. -/
def roundHalfEven (q : ℚ) : ℤ :=
  if q - (⌊q⌋ : ℚ) < 1/2 then ⌊q⌋
  else if 1/2 < q - (⌊q⌋ : ℚ) then ⌊q⌋ + 1
  else if ⌊q⌋ % 2 = 0 then ⌊q⌋ else ⌊q⌋ + 1

/-- Python `round(q, nd)` on exact rationals. -/
def pyRound (q : ℚ) (nd : ℕ) : ℚ :=
  ((roundHalfEven (q * (10 : ℚ) ^ nd) : ℚ)) / (10 : ℚ) ^ nd

/-- Python `int(x)` applied to an untyped value: succeeds on numbers and
numeric strings, raises `TypeError`/`ValueError` (an unexpected, non-adapter
error) otherwise. -/
def pyToInt : PyVal → Except PyErr Int
  | .int n => .ok n
  | .bool b => .ok (if b then 1 else 0)
  | .float q => .ok (if 0 ≤ q then ⌊q⌋ else ⌈q⌉)
  | .str s =>
      match s.toInt? with
      | Option.some n => .ok n
      | Option.none => .error (.other ("invalid literal for int(): " ++ s))
  | _ => .error (.other "int() argument must be a number, not NoneType or container")

-- ============================================================
-- Data contracts (odoo_jsonrpc.py)
-- ============================================================

/-- One checkout line (`CheckoutLine`). -/
structure CheckoutLine where
  sku : String
  qty : ℚ
  price_unit : Option ℚ := Option.none

/-- A checkout request handed from the API layer to the adapter
(`CheckoutRequest`). -/
structure CheckoutRequest where
  store_id : String
  operator_id : Option String
  lines : List CheckoutLine
  note : Option String := Option.none

/-- The uniform adapter result (`CheckoutResult`). -/
structure CheckoutResult where
  ok : Bool
  target : String
  record_id : Option Int
  raw : PyVal
  message : Option String := Option.none

/-- Connection configuration (`OdooConfig`). -/
structure OdooConfig where
  base_url : String
  db : String
  username : String
  password : String
  timeout_sec : ℚ := 10
  default_partner_id : Int := 1
  default_pricelist_id : Option Int := Option.none
  default_pos_session_id : Option Int := Option.none
  create_pos_draft : Bool := true
  sku_field : String := "default_code"

-- ============================================================
-- JSON-RPC transport (OdooJsonRpcClient)
-- ============================================================

/-- Behaviour of the remote `/web/session/authenticate` endpoint, as observed
by `OdooJsonRpcClient.authenticate`: an HTTP-level failure, a vendor error
field, or a `result` whose `uid` entry is modelled directly. -/
structure AuthEnv where
  httpError : Option String
  dataError : Option String
  resultUid : Option Int

/-- Model of `OdooJsonRpcClient.authenticate`: HTTP failure propagates as the raw
transport exception; a vendor `error` field or a missing/falsy `uid` becomes
`OdooJsonRpcError`; on success the `uid` is returned. -/
def authenticate (e : AuthEnv) : Except PyErr Int :=
  match e.httpError with
  | Option.some m => .error (.other m)
  | Option.none =>
    match e.dataError with
    | Option.some m => .error (.odooJsonRpc ("authenticate error: " ++ m))
    | Option.none =>
      match e.resultUid with
      | Option.some u =>
          if u = 0 then .error (.odooJsonRpc "authenticate failed") else .ok u
      | Option.none => .error (.odooJsonRpc "authenticate failed")

/-- The `_uid` slot right after `OdooJsonRpcClient.__init__`. -/
def initUid : Option Int := Option.none

/-- Outcome of one `call_kw` invocation: the returned (or raised) value, the
`_uid` slot afterwards, and how many `authenticate` calls were triggered. -/
structure CallKwStep where
  result : Except PyErr PyVal
  uid : Option Int
  authAttempts : ℕ

/-- Model of `OdooJsonRpcClient.call_kw`: authenticate first exactly when `_uid` is
`None`; then post the envelope, whose outcome is given by `response`. -/
def call_kw (aenv : AuthEnv) (response : Except PyErr PyVal)
    (uid0 : Option Int) : CallKwStep :=
  match uid0 with
  | Option.some u => { result := response, uid := Option.some u, authAttempts := 0 }
  | Option.none =>
    match authenticate aenv with
    | .error e => { result := .error e, uid := Option.none, authAttempts := 1 }
    | .ok u => { result := response, uid := Option.some u, authAttempts := 1 }

/-- A sequential run of `call_kw` invocations against one client instance:
returns the final `_uid` slot and the total number of `authenticate` calls. -/
def runCalls (aenv : AuthEnv) :
    List (Except PyErr PyVal) → Option Int → Option Int × ℕ
  | [], st => (st, 0)
  | r :: rs, st =>
    let s := call_kw aenv r st
    let t := runCalls aenv rs s.uid
    (t.1, s.authAttempts + t.2)

-- ============================================================
-- OdooPosAdapter: remote environment and call sites
-- ============================================================

/-- One row returned by the `product.product` `search_read`: `id` is indexed
directly (`row["id"]`), while the SKU column, `name` and `lst_price` are
accessed with `row.get`. -/
structure ProductRow where
  id : Int
  key : Option String
  name : Option String
  lst_price : Option ℚ

/-- One row returned by the `pos.session` `search_read`. -/
structure SessionRow where
  id : Int
  state : Option String

/-- Responses of the remote ERP at each of the adapter `call_kw` sites,
plus the `uuid4()` draw used by `build_pos_order_payload`.  An `.error`
response models `call_kw` raising (`OdooJsonRpcError` for a vendor error
field, `.other` for an unwrapped transport exception). -/
structure RemoteEnv where
  productSearch : List String → Except PyErr (List ProductRow)
  sessionSearch : Int → Except PyErr (List SessionRow)
  createOrder : Except PyErr PyVal
  confirmOrder : Except PyErr PyVal
  syncFromUi : Except PyErr PyVal
  orderUuid : String

/-- Resolved product info: the value stored under one SKU by
`resolve_products_by_sku`. -/
structure ProductInfo where
  id : Int
  name : Option String
  lst_price : ℚ

/-- The dictionary-building loop of `resolve_products_by_sku`: keep rows whose
SKU column is present and truthy (a non-empty string), later rows
overwriting earlier ones. -/
def buildProductMap (rows : List ProductRow) : List (String × ProductInfo) :=
  rows.foldl
    (fun acc row =>
      match row.key with
      | Option.some k =>
          if k = "" then acc
          else
            assocSet acc k
              { id := row.id, name := row.name,
                lst_price := row.lst_price.getD 0 }
      | Option.none => acc)
    []

/-- The `call_kw` invocation issued by `resolve_products_by_sku`. -/
def productSearchCall : RpcCall := ⟨"product.product", "search_read"⟩

/-- The `call_kw` invocation issued by `_assert_pos_session_exists`. -/
def sessionSearchCall : RpcCall := ⟨"pos.session", "search_read"⟩

/-- The `call_kw` invocation issued by `create_sale_order_draft`. -/
def createOrderCall : RpcCall := ⟨"sale.order", "create"⟩

/-- The `call_kw` invocation issued by `confirm_sale_order`. -/
def confirmOrderCall : RpcCall := ⟨"sale.order", "action_confirm"⟩

/-- The `call_kw` invocation issued by `create_pos_order_from_ui`. -/
def syncFromUiCall : RpcCall := ⟨"pos.order", "sync_from_ui"⟩

/-- Model of `OdooPosAdapter.resolve_products_by_sku`: unconditionally issue one
`search_read` over `product.product` (there is no empty-input short-circuit
in the source), then fold the rows into a SKU-keyed dictionary. -/
def resolve_products_by_sku (env : RemoteEnv) (skus : List String) :
    Except PyErr (List (String × ProductInfo)) × List RpcCall :=
  match env.productSearch skus with
  | .error e => (.error e, [productSearchCall])
  | .ok rows => (.ok (buildProductMap rows), [productSearchCall])

/-- Model of `OdooPosAdapter.resolve_product_ids_by_sku`: project the resolved product
dictionary onto `{sku: product_id}`. -/
def resolve_product_ids_by_sku (env : RemoteEnv) (skus : List String) :
    Except PyErr (List (String × Int)) × List RpcCall :=
  match resolve_products_by_sku env skus with
  | (.error e, t) => (.error e, t)
  | (.ok m, t) => (.ok (m.map (fun kv => (kv.1, kv.2.id))), t)

/-- Model of `OdooPosAdapter._assert_pos_session_exists`: one `search_read` over
`pos.session`; no row is an unknown session, a `closing_control`/`closed`
state is not writable. -/
def assert_pos_session_exists (env : RemoteEnv) (session_id : Int) :
    Except PyErr Unit × List RpcCall :=
  match env.sessionSearch session_id with
  | .error e => (.error e, [sessionSearchCall])
  | .ok rows =>
    match rows with
    | [] =>
        (.error (.odooJsonRpc
          ("Unknown POS session: " ++ toString session_id ++
            ". Odoo 側でセッション作成後に再実行してください。")), [sessionSearchCall])
    | row :: _ =>
      let st := row.state
      if st = Option.some "closing_control" ∨ st = Option.some "closed" then
        (.error (.odooJsonRpc
          ("POS session " ++ toString session_id ++
            " is not writable (state=" ++ (st.getD "None") ++ ").")),
          [sessionSearchCall])
      else (.ok (), [sessionSearchCall])

/-- One `order_line` entry of the draft `sale.order` (the `vals` dict). -/
structure OrderLineVals where
  product_id : Int
  product_uom_qty : ℚ
  price_unit : Option ℚ

/-- The `order_lines` loop of `create_sale_order_draft`: fail at the first
line whose SKU is unresolved (Python `if not pid`, i.e. the SKU is absent or
maps to `0`); otherwise emit its `vals`. -/
def buildOrderLines (m : List (String × Int)) :
    List CheckoutLine → Except PyErr (List OrderLineVals)
  | [] => .ok []
  | line :: rest =>
    match assocGet m line.sku with
    | Option.none => .error (.odooJsonRpc ("Unknown SKU: " ++ line.sku))
    | Option.some p =>
      if p = 0 then .error (.odooJsonRpc ("Unknown SKU: " ++ line.sku))
      else
        match buildOrderLines m rest with
        | .error e => .error e
        | .ok ls =>
            .ok ({ product_id := p, product_uom_qty := line.qty,
                   price_unit := line.price_unit } :: ls)

/-- Model of `OdooPosAdapter.create_sale_order_draft`: resolve the SKUs, build the
`order_line` commands (failing on any unresolved SKU before any creation
call), then issue `sale.order.create` and cast the response with `int`. -/
def create_sale_order_draft (env : RemoteEnv) (_partner_id : Int)
    (lines : List CheckoutLine) (_pricelist_id : Option Int)
    (_note : Option String) : Except PyErr Int × List RpcCall :=
  match resolve_product_ids_by_sku env (lines.map (fun l => l.sku)) with
  | (.error e, t) => (.error e, t)
  | (.ok m, t) =>
    match buildOrderLines m lines with
    | .error e => (.error e, t)
    | .ok _ =>
      let t2 := t ++ [createOrderCall]
      match env.createOrder with
      | .error e => (.error e, t2)
      | .ok v =>
        match pyToInt v with
        | .error e => (.error e, t2)
        | .ok so_id => (.ok so_id, t2)

/-- Model of `OdooPosAdapter.confirm_sale_order`: one `action_confirm` call whose
response is returned verbatim. -/
def confirm_sale_order (env : RemoteEnv) (_sale_order_id : Int) :
    Except PyErr PyVal × List RpcCall :=
  (env.confirmOrder, [confirmOrderCall])

/-- The `line_vals` dict built for one POS line in `build_pos_order_payload`. -/
def posLineVals (product : ProductInfo) (line : CheckoutLine)
    (unit_price subtotal : ℚ) : List (String × PyVal) :=
  [("product_id", .int product.id),
   ("qty", .float line.qty),
   ("price_unit", .float unit_price),
   ("discount", .float 0),
   ("price_subtotal", .float subtotal),
   ("price_subtotal_incl", .float subtotal),
   ("tax_ids", .list [])]

/-- The One2many command `[0, 0, line_vals]` appended to `pos_lines`. -/
def posLineCmd (product : ProductInfo) (line : CheckoutLine)
    (unit_price subtotal : ℚ) : PyVal :=
  .list [.int 0, .int 0, .dict (posLineVals product line unit_price subtotal)]

/-- The per-line loop of `build_pos_order_payload`: fail at the first
unresolved SKU; otherwise compute the unit price (caller override or
`lst_price` fallback), the 2-decimal-rounded subtotal, emit the line command
and accumulate the order total. -/
def buildPosLines (m : List (String × ProductInfo)) :
    List CheckoutLine → Except PyErr (List PyVal × ℚ)
  | [] => .ok ([], 0)
  | line :: rest =>
    match assocGet m line.sku with
    | Option.none => .error (.odooJsonRpc ("Unknown SKU: " ++ line.sku))
    | Option.some product =>
      let unit_price := line.price_unit.getD product.lst_price
      let subtotal := pyRound (unit_price * line.qty) 2
      match buildPosLines m rest with
      | .error e => .error e
      | .ok (pls, total) =>
          .ok (posLineCmd product line unit_price subtotal :: pls,
            subtotal + total)

/-- Python `partner_id or False` in the POS payload. -/
def partnerOrFalse (partner_id : Option Int) : PyVal :=
  match partner_id with
  | Option.some p => if p = 0 then .bool false else .int p
  | Option.none => .bool false

/-- Model of `OdooPosAdapter.build_pos_order_payload`: resolve products, build the POS
lines and totals, then assemble the order dict, applying `extra` via
`payload.update` when non-empty. -/
def build_pos_order_payload (env : RemoteEnv) (session_id : Int)
    (lines : List CheckoutLine) (partner_id : Option Int) (draft : Bool)
    (extra : List (String × PyVal)) :
    Except PyErr (List (String × PyVal)) × List RpcCall :=
  match resolve_products_by_sku env (lines.map (fun l => l.sku)) with
  | (.error e, t) => (.error e, t)
  | (.ok m, t) =>
    match buildPosLines m lines with
    | .error e => (.error e, t)
    | .ok (pos_lines, order_total) =>
      let payload : List (String × PyVal) :=
        [("uuid", .str env.orderUuid),
         ("session_id", .int session_id),
         ("state", .str (if draft then "draft" else "paid")),
         ("partner_id", partnerOrFalse partner_id),
         ("amount_total", .float (pyRound order_total 2)),
         ("amount_tax", .float 0),
         ("amount_paid", .float (if draft then 0 else pyRound order_total 2)),
         ("amount_return", .float 0),
         ("lines", .list pos_lines)]
      match extra with
      | [] => (.ok payload, t)
      | _ => (.ok (dictUpdate payload extra), t)

/-- Model of `OdooPosAdapter.create_pos_order_from_ui`: reject `draft=False` before
anything else (no remote call); then validate the session, build the payload
and submit it with `pos.order.sync_from_ui`. -/
def create_pos_order_from_ui (env : RemoteEnv) (session_id : Int)
    (lines : List CheckoutLine) (partner_id : Option Int) (draft : Bool)
    (extra : List (String × PyVal)) : Except PyErr PyVal × List RpcCall :=
  if draft = false then
    (.error (.odooJsonRpc
      ("mode=\x27pos\x27 は現在 draft=True のみ対応です。" ++
        "CREATE_POS_DRAFT=true を設定してください。")), [])
  else
    match assert_pos_session_exists env session_id with
    | (.error e, t) => (.error e, t)
    | (.ok _, t) =>
      match build_pos_order_payload env session_id lines partner_id draft extra with
      | (.error e, t2) => (.error e, t ++ t2)
      | (.ok _payload, t2) =>
        (env.syncFromUi, t ++ t2 ++ [syncFromUiCall])

/-- Model of `OdooPosAdapter.checkout`: draft-order flow.  The whole body is wrapped
in `except Exception`, so every modelled exception — adapter-level or not —
is converted into an `ok=false` result; the function is total. -/
def checkout (env : RemoteEnv) (cfg : OdooConfig) (req : CheckoutRequest) :
    CheckoutResult × List RpcCall :=
  match create_sale_order_draft env cfg.default_partner_id req.lines
      cfg.default_pricelist_id req.note with
  | (.error e, t) =>
      ({ ok := false, target := "sale.order", record_id := Option.none,
         raw := .none, message := Option.some e.msg }, t)
  | (.ok so_id, t) =>
    match confirm_sale_order env so_id with
    | (.error e, t2) =>
        ({ ok := false, target := "sale.order", record_id := Option.none,
           raw := .none, message := Option.some e.msg }, t ++ t2)
    | (.ok confirm_result, t2) =>
        ({ ok := true, target := "sale.order", record_id := Option.some so_id,
           raw := .dict [("confirm_result", confirm_result)],
           message := Option.none }, t ++ t2)

-- ============================================================
-- HTTP route (routes/pos.py :: checkout)
-- ============================================================

/-- The two literal integration modes accepted by the route. -/
inductive PosMode where
  | sale
  | pos
deriving DecidableEq

/-- The validated request body of `POST /pos/checkout` (`CheckoutIn`). -/
structure CheckoutIn where
  store_id : String
  operator_id : Option String
  mode : PosMode
  lines : List CheckoutLine
  note : Option String
  pos_session_id : Option Int
  partner_id : Option Int

/-- Outcome at the HTTP boundary: a JSON response or an `HTTPException`. -/
inductive RouteResult where
  | resp (status : ℕ) (out : CheckoutResult)
  | err (status : ℕ) (detail : String)

/-- Python `a or b` on optional ints (`None` and `0` are falsy). -/
def orFalsyInt (a b : Option Int) : Option Int :=
  match a with
  | Option.some n => if n = 0 then b else Option.some n
  | Option.none => b

/-- Model of the route handler in `routes/pos.py`: `mode="sale"` maps the adapter result straight
to a 200 response; `mode="pos"` resolves the session id (400 when absent) and
submits, translating `OdooJsonRpcError` to 502 and anything else to 500. -/
def route_checkout (env : RemoteEnv) (cfg : OdooConfig) (body : CheckoutIn) :
    RouteResult :=
  match body.mode with
  | .sale =>
    let r := checkout env cfg
      { store_id := body.store_id, operator_id := body.operator_id,
        lines := body.lines, note := body.note }
    .resp 200 r.1
  | .pos =>
    match orFalsyInt body.pos_session_id cfg.default_pos_session_id with
    | Option.none =>
        .err 400 "mode=\x27pos\x27 の場合は pos_session_id が必要です。"
    | Option.some sid =>
      if sid = 0 then
        .err 400 "mode=\x27pos\x27 の場合は pos_session_id が必要です。"
      else
      let partner := orFalsyInt body.partner_id (Option.some cfg.default_partner_id)
      match create_pos_order_from_ui env sid body.lines partner
          cfg.create_pos_draft [] with
      | (.ok raw, _) =>
          .resp 200 ({ ok := true, target := "pos.order",
                       record_id := Option.none, raw := raw,
                       message := Option.none })
      | (.error (.odooJsonRpc m), _) => .err 502 ("Odoo エラー: " ++ m)
      | (.error (.other m), _) => .err 500 m

-- ============================================================
-- Placeholder vision inference (vision/infer.py)
-- ============================================================

/-- One candidate (`CandidatePrediction`); the score is an exact rational. -/
structure CandidatePrediction where
  sku : String
  name : String
  score : ℚ

/-- The fixed MVP candidate catalog of `infer_topk_candidates`. -/
def catalog : List (String × String) :=
  [("TEST-SVC", "Demo Service SKU"),
   ("TEST-SKU", "Demo Product TEST"),
   ("BREAD-001", "Croissant"),
   ("BREAD-002", "Baguette"),
   ("CAKE-001", "Cheese Cake")]

/-- The UTF-8 bytes of the placeholder `b"empty-image"`. -/
def emptyImageBytes : List ℕ :=
  [101, 109, 112, 116, 121, 45, 105, 109, 97, 103, 101]

/-- The prediction for one rank, given the digest bytes and start offset. -/
def predictionAt (digest : List ℕ) (start_index : ℕ) (rank : ℕ) :
    CandidatePrediction :=
  let idx := (start_index + rank) % catalog.length
  let entry := catalog.getD idx ("", "")
  let score_noise : ℚ := (digest.getD ((rank + 1) % digest.length) 0 : ℚ) / 2550
  let raw_score : ℚ := 95/100 - (rank : ℚ) * (12/100) - score_noise
  let score := pyRound (max (1/100) (min (99/100) raw_score)) 4
  { sku := entry.1, name := entry.2, score := score }

/-- Model of `infer_topk_candidates`, parameterised by the SHA-256 digest function
(an external library call; any function producing the 32 digest bytes).
`ValueError` is modelled by the `.error` branch. -/
def infer_topk_candidates (sha256 : List ℕ → List ℕ) (image_bytes : List ℕ)
    (top_k : Int) : Except String (List CandidatePrediction) :=
  if top_k < 1 then .error "top_k must be >= 1"
  else
    let bytes := match image_bytes with
      | [] => emptyImageBytes
      | bs => bs
    let digest := sha256 bytes
    let start_index := digest.getD 0 0 % catalog.length
    let max_count := min top_k 5
    .ok ((List.range max_count.toNat).map (predictionAt digest start_index))

-- ============================================================
-- The unresolved-SKU test and concrete fixtures
-- ============================================================

/-- Python `if not pid` on the id looked up for the SKU of a line: the SKU is
absent from the resolved mapping or mapped to the falsy id `0`. -/
def skuUnresolved (m : List (String × Int)) (line : CheckoutLine) : Bool :=
  match assocGet m line.sku with
  | Option.none => true
  | Option.some p => p = 0

/-- A remote product row for SKU-A with id 10 and list price 2.5. -/
def rowA : ProductRow :=
  { id := 10, key := Option.some "SKU-A", name := Option.some "Product A",
    lst_price := Option.some (5/2) }

/-- The resolved info `resolve_products_by_sku` derives from `rowA`. -/
def prodA : ProductInfo :=
  { id := 10, name := Option.some "Product A", lst_price := 5/2 }

/-- A healthy remote: SKU-A resolves, create returns 42, confirm succeeds,
an open POS session 7 exists. -/
def envOk : RemoteEnv :=
  { productSearch := fun _ => .ok [rowA],
    sessionSearch := fun _ => .ok [{ id := 7, state := Option.some "opened" }],
    createOrder := .ok (.int 42),
    confirmOrder := .ok (.bool true),
    syncFromUi := .ok (.bool true),
    orderUuid := "uuid-1" }

/-- Like `envOk`, but `sale.order.create` answers `None`, so the adapter
`int(so_id)` cast raises an unexpected (non-`OdooJsonRpcError`) exception. -/
def envUnexpected : RemoteEnv := { envOk with createOrder := .ok .none }

/-- Like `envOk`, but `action_confirm` raises a remote protocol error. -/
def envConfirmFail : RemoteEnv :=
  { envOk with confirmOrder := .error (.odooJsonRpc "confirm failed") }

/-- Like `envOk`, but the requested POS session does not exist. -/
def envNoSession : RemoteEnv :=
  { envOk with sessionSearch := fun _ => .ok [] }

/-- A minimal adapter configuration (all defaults). -/
def cfgA : OdooConfig :=
  { base_url := "http://odoo:8069", db := "db", username := "admin",
    password := "admin" }

/-- A checkout line for SKU-A, quantity 1, no price override. -/
def lineA : CheckoutLine :=
  { sku := "SKU-A", qty := 1, price_unit := Option.none }

/-- A checkout line with unit price 3.335 and quantity 2 (the rounding
example of the spec). -/
def lineC4 : CheckoutLine :=
  { sku := "SKU-A", qty := 2, price_unit := Option.some (3335/1000) }

/-- A one-line checkout request for SKU-A. -/
def reqA : CheckoutRequest :=
  { store_id := "store-1", operator_id := Option.some "op-1",
    lines := [lineA], note := Option.none }

/-- A checkout line whose SKU the remote does not know. -/
def lineMissing : CheckoutLine :=
  { sku := "SKU-MISSING", qty := 1, price_unit := Option.none }

/-- A checkout request containing one line with an unknown SKU. -/
def reqUnknown : CheckoutRequest :=
  { store_id := "store-1", operator_id := Option.none,
    lines := [lineMissing], note := Option.none }

/-- A `mode="sale"` HTTP body carrying `reqA`. -/
def bodySale : CheckoutIn :=
  { store_id := "store-1", operator_id := Option.some "op-1",
    mode := .sale, lines := [lineA], note := Option.none,
    pos_session_id := Option.none, partner_id := Option.none }

/-- The payload `build_pos_order_payload` produces for `[lineC4]` under
`envOk` (session 7, no partner, draft): one line with subtotal 6.67. -/
def payloadC4 : List (String × PyVal) :=
  [("uuid", .str "uuid-1"),
   ("session_id", .int 7),
   ("state", .str "draft"),
   ("partner_id", .bool false),
   ("amount_total", .float (667/100)),
   ("amount_tax", .float 0),
   ("amount_paid", .float 0),
   ("amount_return", .float 0),
   ("lines", .list [posLineCmd prodA lineC4 (3335/1000) (667/100)])]

/-- An authentication environment that yields uid 1. -/
def authOkEnv : AuthEnv :=
  { httpError := Option.none, dataError := Option.none,
    resultUid := Option.some 1 }

/-- A fixed all-zero 32-byte digest function standing in for SHA-256. -/
def shaZero : List ℕ → List ℕ := fun _ => List.replicate 32 0

/-- The top-3 candidates `infer_topk_candidates` produces under `shaZero`. -/
def predsC10 : List CandidatePrediction :=
  [{ sku := "TEST-SVC", name := "Demo Service SKU", score := 19/20 },
   { sku := "TEST-SKU", name := "Demo Product TEST", score := 83/100 },
   { sku := "BREAD-001", name := "Croissant", score := 71/100 }]

-- ============================================================
-- Helper lemmas
-- ============================================================

/-- A `call_kw` run that already holds an identity never authenticates and
never changes the identity slot. -/
theorem runCalls_some (aenv : AuthEnv) (resps : List (Except PyErr PyVal))
    (u : Int) : runCalls aenv resps (Option.some u) = (Option.some u, 0) := by
  induction resps with
  | nil => rfl
  | cons r rs ih => simp [runCalls, call_kw, ih]

/-- If the SKU of some line is unresolved (absent or falsy), the order-line build
of `create_sale_order_draft` fails with an `Unknown SKU` message. -/
theorem buildOrderLines_unresolved (m : List (String × Int)) :
    ∀ lines : List CheckoutLine,
      (∃ line ∈ lines, skuUnresolved m line = true) →
      ∃ s, buildOrderLines m lines =
        .error (.odooJsonRpc ("Unknown SKU: " ++ s)) := by
  intro lines
  induction lines with
  | nil => rintro ⟨line, hmem, _⟩; cases hmem
  | cons line rest ih =>
      rintro ⟨l, hmem, hbadl⟩
      by_cases hbad : skuUnresolved m line = true
      · refine ⟨line.sku, ?_⟩
        unfold skuUnresolved at hbad
        cases h : assocGet m line.sku with
        | none => simp [buildOrderLines, h]
        | some p =>
            rw [h] at hbad
            simp only [decide_eq_true_eq] at hbad
            simp [buildOrderLines, h, hbad]
      · have hmem2 : l ∈ rest := by
          cases hmem with
          | head => exact absurd hbadl hbad
          | tail _ h2 => exact h2
        obtain ⟨s, herr⟩ := ih ⟨l, hmem2, hbadl⟩
        unfold skuUnresolved at hbad
        cases h : assocGet m line.sku with
        | none => rw [h] at hbad; simp at hbad
        | some p =>
            rw [h] at hbad
            simp only [decide_eq_true_eq] at hbad
            exact ⟨s, by simp [buildOrderLines, h, hbad, herr]⟩

/-- Any integer lower bound of `q` bounds `roundHalfEven q` from below. -/
theorem le_roundHalfEven (a : ℤ) (q : ℚ) (h : (a : ℚ) ≤ q) :
    a ≤ roundHalfEven q := by
  have hf : a ≤ ⌊q⌋ := Int.le_floor.mpr h
  unfold roundHalfEven
  split_ifs <;> omega

/-- Any integer upper bound of `q` bounds `roundHalfEven q` from above. -/
theorem roundHalfEven_le (b : ℤ) (q : ℚ) (h : q ≤ (b : ℚ)) :
    roundHalfEven q ≤ b := by
  have hfb : ⌊q⌋ ≤ b := by
    have h2 := Int.floor_le_floor h
    rwa [Int.floor_intCast] at h2
  have hfl : (⌊q⌋ : ℚ) ≤ q := Int.floor_le q
  unfold roundHalfEven
  split_ifs with h1 h2 h3
  · exact hfb
  · have hq : (⌊q⌋ : ℚ) < (b : ℚ) := by linarith
    have : ⌊q⌋ < b := by exact_mod_cast hq
    omega
  · exact hfb
  · have he : q - (⌊q⌋ : ℚ) = 1/2 := le_antisymm (not_lt.mp h2) (not_lt.mp h1)
    have hq : (⌊q⌋ : ℚ) < (b : ℚ) := by linarith
    have : ⌊q⌋ < b := by exact_mod_cast hq
    omega

/-- Rounding to 4 decimal places keeps a score inside `[0.01, 0.99]`. -/
theorem pyRound_score_bounds (c : ℚ) (h1 : 1/100 ≤ c) (h2 : c ≤ 99/100) :
    1/100 ≤ pyRound c 4 ∧ pyRound c 4 ≤ 99/100 := by
  have hl : (100 : ℤ) ≤ roundHalfEven (c * (10 : ℚ) ^ 4) :=
    le_roundHalfEven 100 _ (by push_cast; linarith)
  have hu : roundHalfEven (c * (10 : ℚ) ^ 4) ≤ 9900 :=
    roundHalfEven_le 9900 _ (by push_cast; linarith)
  have hc1 : (100 : ℚ) ≤ ((roundHalfEven (c * (10 : ℚ) ^ 4) : ℤ) : ℚ) := by
    exact_mod_cast hl
  have hc2 : ((roundHalfEven (c * (10 : ℚ) ^ 4) : ℤ) : ℚ) ≤ 9900 := by
    exact_mod_cast hu
  unfold pyRound
  norm_num at hc1 hc2 ⊢
  constructor <;> linarith

/-- The per-line loop of `build_pos_order_payload`, characterised: on
success every produced line command comes from a resolved product, carries
the 2-decimal-rounded subtotal of unit price times quantity, and the
accumulated order total is the plain sum of those rounded subtotals. -/
theorem buildPosLines_spec (m : List (String × ProductInfo)) :
    ∀ (lines : List CheckoutLine) (pls : List PyVal) (total : ℚ),
      buildPosLines m lines = .ok (pls, total) →
      ∃ sts : List ℚ,
        total = sts.sum ∧
        List.Forall₂ (fun (line : CheckoutLine) (pst : PyVal × ℚ) =>
          ∃ p, assocGet m line.sku = Option.some p ∧
            pst.2 = pyRound ((line.price_unit.getD p.lst_price) * line.qty) 2 ∧
            pst.1 = posLineCmd p line (line.price_unit.getD p.lst_price) pst.2)
          lines (pls.zip sts) := by
  intro lines
  induction lines with
  | nil =>
      intro pls total h
      simp only [buildPosLines, Except.ok.injEq, Prod.mk.injEq] at h
      obtain ⟨h1, h2⟩ := h
      subst h1; subst h2
      exact ⟨[], by simp, by simp⟩
  | cons line rest ih =>
      intro pls total h
      simp only [buildPosLines] at h
      cases hga : assocGet m line.sku with
      | none => rw [hga] at h; cases h
      | some p =>
          rw [hga] at h
          cases hrec : buildPosLines m rest with
          | error e => rw [hrec] at h; cases h
          | ok pt =>
              obtain ⟨pls0, total0⟩ := pt
              rw [hrec] at h
              simp only [Except.ok.injEq, Prod.mk.injEq] at h
              obtain ⟨h1, h2⟩ := h
              obtain ⟨sts0, hsum, hf⟩ := ih pls0 total0 hrec
              refine ⟨pyRound ((line.price_unit.getD p.lst_price) * line.qty) 2
                :: sts0, ?_, ?_⟩
              · rw [← h2, hsum, List.sum_cons]
              · rw [← h1]
                exact List.Forall₂.cons ⟨p, hga, rfl, rfl⟩ hf

/-- Every candidate score, being a clamp into `[0.01, 0.99]` rounded to four
decimals, stays inside `[0.01, 0.99]`. -/
theorem predictionAt_score_bounds (digest : List ℕ) (si rank : ℕ) :
    1/100 ≤ (predictionAt digest si rank).score ∧
    (predictionAt digest si rank).score ≤ 99/100 := by
  unfold predictionAt
  dsimp only
  exact pyRound_score_bounds _ (le_max_left _ _)
    (max_le (by norm_num) (min_le_left _ _))

-- ============================================================
-- Claim theorems
-- ============================================================

/-- C1: contrary to the spec, `resolve_products_by_sku` has no empty-input
short-circuit: even for the empty SKU list it issues exactly one
`product.product` `search_read` call (the repository test
`test_empty_skus_returns_empty_dict` asserts that no call is made). -/
theorem resolve_empty_skus_still_calls (env : RemoteEnv) :
    (resolve_products_by_sku env []).2 = [productSearchCall] := by
  unfold resolve_products_by_sku
  cases h : env.productSearch [] <;> simp

/-- C6: requesting the finalized/paid variant (`draft=False`) of the
session-order flow fails immediately with the configuration-guidance
message, with an empty call trace: no session validation, no payload
construction and no submission happen. -/
theorem create_pos_order_paid_fails_fast (env : RemoteEnv) (session_id : Int)
    (lines : List CheckoutLine) (partner_id : Option Int)
    (extra : List (String × PyVal)) :
    create_pos_order_from_ui env session_id lines partner_id false extra =
      (.error (.odooJsonRpc
        ("mode=\x27pos\x27 は現在 draft=True のみ対応です。" ++
          "CREATE_POS_DRAFT=true を設定してください。")), []) := rfl

/-- C8: when draft creation succeeds but `action_confirm` raises the remote
protocol error "confirm failed", `checkout` reports `ok=false`, target
`sale.order`, no record id and the message "confirm failed". -/
theorem checkout_confirm_failure (env : RemoteEnv) (cfg : OdooConfig)
    (req : CheckoutRequest) (so_id : Int) (t : List RpcCall)
    (hcreate : create_sale_order_draft env cfg.default_partner_id req.lines
      cfg.default_pricelist_id req.note = (.ok so_id, t))
    (hconfirm : env.confirmOrder = .error (.odooJsonRpc "confirm failed")) :
    (checkout env cfg req).1 =
      { ok := false, target := "sale.order", record_id := Option.none,
        raw := .none, message := Option.some "confirm failed" } := by
  simp [checkout, hcreate, confirm_sale_order, hconfirm, PyErr.msg]

/-- C8 witness: the concrete environment `envConfirmFail` realises the
hypotheses with record id 42. -/
theorem checkout_confirm_failure_witness :
    (checkout envConfirmFail cfgA reqA).1 =
      { ok := false, target := "sale.order", record_id := Option.none,
        raw := .none, message := Option.some "confirm failed" } :=
  checkout_confirm_failure envConfirmFail cfgA reqA 42
    [productSearchCall, createOrderCall] rfl rfl

/-- C9: when draft creation succeeds returning record id 42 and confirmation
succeeds with response `v`, `checkout` returns `ok=true`, target
`sale.order`, record id 42, and carries the confirmation response in the
raw payload. -/
theorem checkout_success_record_id (env : RemoteEnv) (cfg : OdooConfig)
    (req : CheckoutRequest) (t : List RpcCall) (v : PyVal)
    (hcreate : create_sale_order_draft env cfg.default_partner_id req.lines
      cfg.default_pricelist_id req.note = (.ok 42, t))
    (hconfirm : env.confirmOrder = .ok v) :
    checkout env cfg req =
      ({ ok := true, target := "sale.order", record_id := Option.some 42,
         raw := .dict [("confirm_result", v)], message := Option.none },
        t ++ [confirmOrderCall]) := by
  simp [checkout, hcreate, confirm_sale_order, hconfirm]

/-- C9 witness: under `envOk`, create returns 42 and confirm returns `True`. -/
theorem checkout_success_record_id_witness :
    checkout envOk cfgA reqA =
      ({ ok := true, target := "sale.order", record_id := Option.some 42,
         raw := .dict [("confirm_result", .bool true)],
         message := Option.none },
        [productSearchCall, createOrderCall] ++ [confirmOrderCall]) :=
  checkout_success_record_id envOk cfgA reqA
    [productSearchCall, createOrderCall] (.bool true) rfl rfl

/-- C5: the transport identity slot starts absent; `call_kw` triggers
`authenticate` exactly when no identity is held; a held identity is reused
unchanged with no re-authentication; and when authentication succeeds, a
sequential run of any number of `call_kw` invocations performs at most one
authentication over the client lifetime. -/
theorem client_lazy_single_auth :
    initUid = Option.none ∧
    (∀ (aenv : AuthEnv) (resp : Except PyErr PyVal) (st : Option Int),
      (call_kw aenv resp st).authAttempts =
        (if st = Option.none then 1 else 0)) ∧
    (∀ (aenv : AuthEnv) (resp : Except PyErr PyVal) (u : Int),
      (call_kw aenv resp (Option.some u)).uid = Option.some u ∧
      (call_kw aenv resp (Option.some u)).authAttempts = 0) ∧
    (∀ (aenv : AuthEnv) (u : Int), authenticate aenv = .ok u →
      ∀ resps : List (Except PyErr PyVal),
        (runCalls aenv resps initUid).2 ≤ 1) := by
  refine ⟨rfl, ?_, ?_, ?_⟩
  · intro aenv resp st
    cases st with
    | none =>
        simp only [call_kw]
        cases authenticate aenv <;> simp
    | some u => rfl
  · intro aenv resp u
    exact ⟨rfl, rfl⟩
  · intro aenv u hauth resps
    cases resps with
    | nil => simp [runCalls, initUid]
    | cons r rs =>
        simp [runCalls, call_kw, initUid, hauth, runCalls_some]

/-- C5 witness: with a successful authentication environment, a run of two
calls from the fresh client authenticates at most once. -/
theorem client_lazy_single_auth_witness :
    (runCalls authOkEnv [.ok .none, .ok .none] initUid).2 ≤ 1 :=
  client_lazy_single_auth.2.2.2 authOkEnv 1 rfl [.ok .none, .ok .none]

/-- C2 counterexample: under `envUnexpected` the draft-order flow raises an
unexpected, non-adapter exception (the `int()` cast of the `None` returned
by `sale.order.create`), yet `checkout` still converts it to `ok=false` and
the HTTP boundary answers 200 — the error does not propagate to a 500, so
the orchestrator does not catch only `OdooJsonRpcError`. -/
theorem checkout_c2_counterexample :
    (create_sale_order_draft envUnexpected cfgA.default_partner_id reqA.lines
        cfgA.default_pricelist_id reqA.note).1 =
      .error (.other
        "int() argument must be a number, not NoneType or container") ∧
    (checkout envUnexpected cfgA reqA).1.ok = false ∧
    (checkout envUnexpected cfgA reqA).1.message =
      Option.some
        "int() argument must be a number, not NoneType or container" ∧
    route_checkout envUnexpected cfgA bodySale =
      .resp 200 (checkout envUnexpected cfgA reqA).1 :=
  ⟨rfl, rfl, rfl, rfl⟩

/-- C2 (amended): `checkout` wraps the whole draft-order flow in a blanket
`except Exception`, so every error raised inside it — `OdooJsonRpcError` or
unexpected alike — is converted to a structured `ok=false` result with the
message of the error, at either the create or the confirm step; consequently a
`mode="sale"` request always reaches the HTTP boundary as a 200 response and
no error of the draft-order flow is translated into a 500. -/
theorem checkout_catches_every_error :
    (∀ (env : RemoteEnv) (cfg : OdooConfig) (req : CheckoutRequest)
      (e : PyErr) (t : List RpcCall),
      create_sale_order_draft env cfg.default_partner_id req.lines
          cfg.default_pricelist_id req.note = (.error e, t) →
      (checkout env cfg req).1 =
        { ok := false, target := "sale.order", record_id := Option.none,
          raw := .none, message := Option.some e.msg }) ∧
    (∀ (env : RemoteEnv) (cfg : OdooConfig) (req : CheckoutRequest)
      (so_id : Int) (t : List RpcCall) (e : PyErr),
      create_sale_order_draft env cfg.default_partner_id req.lines
          cfg.default_pricelist_id req.note = (.ok so_id, t) →
      env.confirmOrder = .error e →
      (checkout env cfg req).1 =
        { ok := false, target := "sale.order", record_id := Option.none,
          raw := .none, message := Option.some e.msg }) ∧
    (∀ (env : RemoteEnv) (cfg : OdooConfig) (body : CheckoutIn),
      body.mode = PosMode.sale →
      ∃ out, route_checkout env cfg body = .resp 200 out) := by
  refine ⟨?_, ?_, ?_⟩
  · intro env cfg req e t hcreate
    simp [checkout, hcreate]
  · intro env cfg req so_id t e hcreate hconfirm
    simp [checkout, hcreate, confirm_sale_order, hconfirm]
  · intro env cfg body hmode
    cases body with
    | mk store_id operator_id mode lines note pos_session_id partner_id =>
      cases hmode
      exact ⟨_, rfl⟩

/-- C3: whenever the SKU lookup succeeds but the SKU of at least one line is
missing from the resolved mapping (or maps to a falsy id), the draft-order
flow returns `ok=false` with an `Unknown SKU` message, no record id, and
never issues the `sale.order` creation call — all-or-nothing, no partial
order is submitted. -/
theorem checkout_unknown_sku_all_or_nothing (env : RemoteEnv)
    (cfg : OdooConfig) (req : CheckoutRequest) (rows : List ProductRow)
    (hsearch : env.productSearch (req.lines.map fun l => l.sku) = .ok rows)
    (hbad : ∃ line ∈ req.lines,
      skuUnresolved ((buildProductMap rows).map fun kv => (kv.1, kv.2.id))
        line = true) :
    (checkout env cfg req).1.ok = false ∧
    (checkout env cfg req).1.record_id = Option.none ∧
    (∃ s, (checkout env cfg req).1.message =
      Option.some ("Unknown SKU: " ++ s)) ∧
    createOrderCall ∉ (checkout env cfg req).2 := by
  obtain ⟨s, herr⟩ := buildOrderLines_unresolved _ _ hbad
  have hcreate : create_sale_order_draft env cfg.default_partner_id req.lines
      cfg.default_pricelist_id req.note =
      (.error (.odooJsonRpc ("Unknown SKU: " ++ s)), [productSearchCall]) := by
    simp [create_sale_order_draft, resolve_product_ids_by_sku,
      resolve_products_by_sku, hsearch, herr]
  refine ⟨?_, ?_, ⟨s, ?_⟩, ?_⟩ <;>
    simp [checkout, hcreate, PyErr.msg, productSearchCall, createOrderCall]

/-- C3 witness: under `envOk` the SKU "SKU-MISSING" does not resolve and the
flow aborts with `Unknown SKU` before any creation call. -/
theorem checkout_unknown_sku_all_or_nothing_witness :
    (checkout envOk cfgA reqUnknown).1.ok = false ∧
    (checkout envOk cfgA reqUnknown).1.record_id = Option.none ∧
    (∃ s, (checkout envOk cfgA reqUnknown).1.message =
      Option.some ("Unknown SKU: " ++ s)) ∧
    createOrderCall ∉ (checkout envOk cfgA reqUnknown).2 :=
  checkout_unknown_sku_all_or_nothing envOk cfgA reqUnknown [rowA] rfl
    ⟨lineMissing, by simp [reqUnknown], by decide⟩

/-- C7: in the session-order flow, an unknown session or a session in state
`closing_control` or `closed` makes the flow fail right after the session
lookup: the call trace holds only the `pos.session` `search_read`, so no
payload is built (no product resolution) and nothing is submitted. -/
theorem pos_closed_session_fails_before_payload (env : RemoteEnv)
    (session_id : Int) (lines : List CheckoutLine) (partner_id : Option Int)
    (extra : List (String × PyVal)) (rows : List SessionRow)
    (hsearch : env.sessionSearch session_id = .ok rows)
    (hbad : rows = [] ∨ ∃ row rest, rows = row :: rest ∧
      (row.state = Option.some "closing_control" ∨
        row.state = Option.some "closed")) :
    ∃ msg, create_pos_order_from_ui env session_id lines partner_id true
      extra = (.error (.odooJsonRpc msg), [sessionSearchCall]) := by
  rcases hbad with hnil | ⟨row, rest, hcons, hstate⟩
  · subst hnil
    refine ⟨"Unknown POS session: " ++ toString session_id ++
      ". Odoo 側でセッション作成後に再実行してください。", ?_⟩
    simp [create_pos_order_from_ui, assert_pos_session_exists, hsearch]
  · subst hcons
    refine ⟨"POS session " ++ toString session_id ++
      " is not writable (state=" ++ row.state.getD "None" ++ ").", ?_⟩
    simp [create_pos_order_from_ui, assert_pos_session_exists, hsearch,
      hstate]

/-- C7 witness: session 7 does not exist under `envNoSession`, so the flow
fails with only the session lookup in its trace. -/
theorem pos_closed_session_fails_before_payload_witness :
    ∃ msg, create_pos_order_from_ui envNoSession 7 [lineA] Option.none true
      [] = (.error (.odooJsonRpc msg), [sessionSearchCall]) :=
  pos_closed_session_fails_before_payload envNoSession 7 [lineA] Option.none
    [] [] rfl (Or.inl rfl)

/-- C4: in session-order mode, whenever `build_pos_order_payload` succeeds
(no caller `extra`), every produced line carries
`price_subtotal = round2(unit price × qty)` with `price_subtotal_incl` equal
to that same subtotal, and the `amount_total` of the payload is the 2-decimal
rounding of the sum of the already-rounded line subtotals. -/
theorem build_pos_payload_rounding (env : RemoteEnv) (session_id : Int)
    (lines : List CheckoutLine) (partner_id : Option Int) (draft : Bool)
    (payload : List (String × PyVal)) (t : List RpcCall)
    (hbuild : build_pos_order_payload env session_id lines partner_id draft []
      = (.ok payload, t)) :
    ∃ m pls total sts,
      resolve_products_by_sku env (lines.map fun l => l.sku) = (.ok m, t) ∧
      buildPosLines m lines = .ok (pls, total) ∧
      dictGet payload "lines" = Option.some (.list pls) ∧
      dictGet payload "amount_total" =
        Option.some (.float (pyRound total 2)) ∧
      total = sts.sum ∧
      List.Forall₂ (fun (line : CheckoutLine) (pst : PyVal × ℚ) =>
        ∃ p, assocGet m line.sku = Option.some p ∧
          pst.2 = pyRound ((line.price_unit.getD p.lst_price) * line.qty) 2 ∧
          pst.1 = posLineCmd p line (line.price_unit.getD p.lst_price) pst.2)
        lines (pls.zip sts) ∧
      (∀ (p : ProductInfo) (line : CheckoutLine) (u st : ℚ),
        dictGet (posLineVals p line u st) "price_subtotal" =
          Option.some (.float st) ∧
        dictGet (posLineVals p line u st) "price_subtotal_incl" =
          Option.some (.float st)) := by
  unfold build_pos_order_payload at hbuild
  split at hbuild
  · simp at hbuild
  · rename_i m0 tr heq
    split at hbuild
    · simp at hbuild
    · rename_i pos_lines order_total hbl
      simp only [Prod.mk.injEq, Except.ok.injEq] at hbuild
      obtain ⟨hpay, ht⟩ := hbuild
      subst hpay; subst ht
      obtain ⟨sts, hsum, hf⟩ := buildPosLines_spec m0 lines pos_lines
        order_total hbl
      exact ⟨m0, pos_lines, order_total, sts, heq, hbl, by simp [dictGet],
        by simp [dictGet], hsum, hf, fun p line u st => ⟨rfl, rfl⟩⟩

/-- C4 witness: a line with unit price 3.335 and quantity 2 under `envOk`
yields subtotal 6.67 and `amount_total` 6.67. -/
theorem build_pos_payload_rounding_witness :
    (∃ m pls total sts,
      resolve_products_by_sku envOk ([lineC4].map fun l => l.sku) =
        (.ok m, [productSearchCall]) ∧
      buildPosLines m [lineC4] = .ok (pls, total) ∧
      dictGet payloadC4 "lines" = Option.some (.list pls) ∧
      dictGet payloadC4 "amount_total" =
        Option.some (.float (pyRound total 2)) ∧
      total = sts.sum ∧
      List.Forall₂ (fun (line : CheckoutLine) (pst : PyVal × ℚ) =>
        ∃ p, assocGet m line.sku = Option.some p ∧
          pst.2 = pyRound ((line.price_unit.getD p.lst_price) * line.qty) 2 ∧
          pst.1 = posLineCmd p line (line.price_unit.getD p.lst_price) pst.2)
        [lineC4] (pls.zip sts) ∧
      (∀ (p : ProductInfo) (line : CheckoutLine) (u st : ℚ),
        dictGet (posLineVals p line u st) "price_subtotal" =
          Option.some (.float st) ∧
        dictGet (posLineVals p line u st) "price_subtotal_incl" =
          Option.some (.float st))) ∧
    pyRound ((3335/1000 : ℚ) * 2) 2 = 667/100 :=
  ⟨build_pos_payload_rounding envOk 7 [lineC4] Option.none true payloadC4
    [productSearchCall] (by with_unfolding_all rfl),
    by with_unfolding_all rfl⟩

/-- C10: for every digest function, byte string and `top_k`, the placeholder
inference fails exactly when `top_k < 1`; on success it returns exactly
`min(top_k, 5)` candidates whose scores all lie in `[0.01, 0.99]`; and empty
input bytes are treated as the fixed placeholder `b"empty-image"`. -/
theorem infer_topk_properties (sha256 : List ℕ → List ℕ)
    (image_bytes : List ℕ) (top_k : Int) :
    ((∃ e, infer_topk_candidates sha256 image_bytes top_k = .error e) ↔
      top_k < 1) ∧
    (∀ preds, infer_topk_candidates sha256 image_bytes top_k = .ok preds →
      preds.length = (min top_k 5).toNat ∧
      ∀ p ∈ preds, 1/100 ≤ p.score ∧ p.score ≤ 99/100) ∧
    infer_topk_candidates sha256 [] top_k =
      infer_topk_candidates sha256 emptyImageBytes top_k := by
  refine ⟨?_, ?_, ?_⟩
  · by_cases hk : top_k < 1
    · simp [infer_topk_candidates, hk]
    · simp [infer_topk_candidates, hk]
  · intro preds h
    by_cases hk : top_k < 1
    · simp [infer_topk_candidates, hk] at h
    · simp only [infer_topk_candidates, if_neg hk, Except.ok.injEq] at h
      subst h
      constructor
      · simp
      · intro p hp
        simp only [List.mem_map] at hp
        obtain ⟨rank, _, hpred⟩ := hp
        rw [← hpred]
        exact predictionAt_score_bounds _ _ _
  · by_cases hk : top_k < 1
    · simp [infer_topk_candidates, hk]
    · simp [infer_topk_candidates, hk, emptyImageBytes]

/-- C10 witness: with an all-zero 32-byte digest, requesting the top 3 gives
exactly the 3 concrete candidates, all with scores in `[0.01, 0.99]`. -/
theorem infer_topk_properties_witness :
    predsC10.length = (min (3 : Int) 5).toNat ∧
    ∀ p ∈ predsC10, 1/100 ≤ p.score ∧ p.score ≤ 99/100 :=
  (infer_topk_properties shaZero [1, 2] 3).2.1 predsC10
    (by with_unfolding_all rfl)

/-- C2 witness: the unexpected `int()` failure of `envUnexpected` is caught
and reported as `ok=false`. -/
theorem checkout_catches_every_error_witness :
    (checkout envUnexpected cfgA reqA).1 =
      { ok := false, target := "sale.order", record_id := Option.none,
        raw := .none,
        message := Option.some
          "int() argument must be a number, not NoneType or container" } :=
  checkout_catches_every_error.1 envUnexpected cfgA reqA
    (.other "int() argument must be a number, not NoneType or container")
    [productSearchCall, createOrderCall] rfl

end ScanCheckout
